import Mathlib

/-!
Verification of the imapnotify core (src/imapnotify/core.py) against its
specification. The Python code is shallowly embedded: pure fragments become
Lean functions, raised exceptions become `Except` errors, and the external
collaborators (the asyncio scheduler, the aioimaplib client, spawned
subprocesses, `shlex.split`) become explicit oracle parameters. Machine-level
concerns (bytes of stdout) are modelled as lists of naturals.
-/

/-- Python exception values that the core raises or observes.
`passwordEvalError` carries the raw evaluation command string and the
underlying failure, mirroring `PasswordEvalError.__init__(command, err)`;
`calledProcessError` mirrors `subprocess.CalledProcessError(returncode, cmd)`;
`osError` stands for any other exception (e.g. a spawn failure) that the core
does not catch. -/
inductive PyErr : Type where
  | configError (msg : String)
  | passwordEvalError (cmd : String) (err : PyErr)
  | calledProcessError (returncode : Int) (cmd : List String)
  | authError (host : String) (port : Nat) (login : String) (password : String)
  | attributeError (name : String)
  | typeError (msg : String)
  | valueError (msg : String)
  | osError (msg : String)
  deriving DecidableEq, Repr

/-- Model of Python `pat in s` for strings restricted to lists of characters:
`sub_list pat l` is true iff `pat` occurs as a contiguous sublist of `l`. -/
def sub_list (pat : List Char) : List Char → Bool
  | [] => pat.isPrefixOf []
  | c :: rest => pat.isPrefixOf (c :: rest) || sub_list pat rest

/-- Model of the Python substring test `pat in s` on `str` operands. -/
def py_in_str (pat s : String) : Bool :=
  sub_list pat.data s.data

/-- A server push as received from `wait_server_push`: either a single
line or a sequence of lines (spec §3, ServerPush). -/
inductive ServerPush : Type where
  | single (s : String)
  | multi (xs : List String)
  deriving DecidableEq, Repr

/-- `Notifier._is_new_msg` (core.py:133-140). For a single string `msg`,
`'EXISTS' in msg` is the substring test and the subsequent `for x in msg`
iterates over the one-character substrings of `msg`; for a sequence,
`'EXISTS' in msg` is element membership and the loop tests each element for
the substring. The Python function returns `True` or falls off the end
returning `None`; both truth values are modelled as `Bool`. -/
def is_new_msg : ServerPush → Bool
  | .single s =>
      py_in_str "EXISTS" s || s.data.any (fun c => py_in_str "EXISTS" (String.mk [c]))
  | .multi xs =>
      xs.contains "EXISTS" || xs.any (fun x => py_in_str "EXISTS" x)

/-- The classification the spec describes (§3, §8): the literal marker
`EXISTS` occurs in the push itself or in some element of the sequence. -/
def spec_new_message : ServerPush → Prop
  | .single s => py_in_str "EXISTS" s = true
  | .multi xs => ∃ x ∈ xs, py_in_str "EXISTS" x = true

theorem sub_list_of_isPrefixOf {pat l : List Char} (h : pat.isPrefixOf l = true) :
    sub_list pat l = true := by
  cases l with
  | nil => simpa [sub_list] using h
  | cons c rest => simp [sub_list, h]

theorem exists_marker_not_in_single_char (c : Char) :
    py_in_str "EXISTS" (String.mk [c]) = false := by
  show sub_list ("EXISTS".data) [c] = false
  have hdata : ("EXISTS").data = ['E', 'X', 'I', 'S', 'T', 'S'] := rfl
  simp [sub_list, hdata, List.isPrefixOf]

theorem py_in_str_self (s : String) : py_in_str s s = true := by
  unfold py_in_str
  cases h : s.data with
  | nil => simp [sub_list, h, List.isPrefixOf]
  | cons c rest =>
      apply sub_list_of_isPrefixOf
      simp [List.isPrefixOf_iff_prefix]

/-- C1: for every server push, the classifier is true iff the literal
substring EXISTS occurs in the push itself or in some element of the
sequence; in particular the single line OK classifies as false and the
sequence of 1 RECENT and 2 EXISTS classifies as true. -/
theorem C1_is_new_msg_iff_marker :
    (∀ p : ServerPush, is_new_msg p = true ↔ spec_new_message p) ∧
    is_new_msg (.single "OK") = false ∧
    is_new_msg (.multi ["1 RECENT", "2 EXISTS"]) = true := by
  refine ⟨fun p => ?_, by decide, by decide⟩
  cases p with
  | single s =>
      simp [is_new_msg, spec_new_message, exists_marker_not_in_single_char]
  | multi xs =>
      simp only [is_new_msg, spec_new_message, Bool.or_eq_true, List.any_eq_true,
        List.contains_iff_exists_mem_beq, beq_iff_eq]
      constructor
      · rintro (⟨x, hx, rfl⟩ | ⟨x, hx, hpx⟩)
        · exact ⟨"EXISTS", hx, py_in_str_self "EXISTS"⟩
        · exact ⟨x, hx, hpx⟩
      · rintro ⟨x, hx, hpx⟩
        exact Or.inr ⟨x, hx, hpx⟩

/-! ## Credential resolution (core.py:56-72) -/

/-- The characters removed by the Python call `.strip(CR LF)`. -/
def is_crlf (c : Char) : Bool :=
  c = '\r' || c = '\n'

/-- Model of Python `s.strip` with the two line-ending characters as
argument (core.py:67): CR and LF are removed from BOTH ends of the
string. -/
def strip_crlf (s : String) : String :=
  String.mk (((s.data.dropWhile is_crlf).reverse.dropWhile is_crlf).reverse)

/-- The trimming described by the spec (§4.1): only TRAILING line-ending
characters removed. Written from the spec words, to be compared with
`strip_crlf`. -/
def spec_rstrip_crlf (s : String) : String :=
  String.mk ((s.data.reverse.dropWhile is_crlf).reverse)

/-- `Notifier._escape_password` (core.py:56-57): `password.replace` turning
every double-quote character into a backslash followed by a double
quote. -/
def escape_password (s : String) : String :=
  String.mk (s.data.flatMap fun c => if c = '"' then ['\\', '"'] else [c])

/-- The slice of the configuration object that credential resolution
reads: the optional literal `password` field and the optional
`password_eval` field. -/
structure PasswordConfig where
  password : Option String
  password_eval : Option String
  deriving DecidableEq, Repr

/-- Outcome of running the `password_eval` command through
`subprocess.check_output` and utf8-decoding its stdout: the decoded stdout
on success, a `CalledProcessError` on non-zero exit, or some other
exception (e.g. a spawn failure), which `_get_password` does not catch. -/
inductive EvalOutcome : Type where
  | ok (stdout : String)
  | calledProcessError (returncode : Int) (cmd : List String)
  | otherExc (msg : String)
  deriving DecidableEq, Repr

/-- `Notifier._get_password` (core.py:63-72): when `password_eval` is
configured, run it and strip CR and LF from both ends of the decoded
output; a `CalledProcessError` becomes `PasswordEvalError` carrying the
raw command string and the underlying error, any other exception
propagates unchanged. Without `password_eval`, return the literal
`password` field, raising `ConfigError` when it is missing. -/
def get_password (cfg : PasswordConfig) (run_eval : String → EvalOutcome) :
    Except PyErr String :=
  match cfg.password_eval with
  | some cmd =>
      match run_eval cmd with
      | .ok out => .ok (strip_crlf out)
      | .calledProcessError rc argv =>
          .error (.passwordEvalError cmd (.calledProcessError rc argv))
      | .otherExc msg => .error (.osError msg)
  | none =>
      match cfg.password with
      | some p => .ok p
      | none => .error (.configError "missing required field password")

/-- The computation wrapped by the `password` cachedproperty
(core.py:59-61): resolve, then escape. -/
def password_value (cfg : PasswordConfig) (run_eval : String → EvalOutcome) :
    Except PyErr String :=
  (get_password cfg run_eval).map escape_password

/-- C6 as stated is false: `.strip` trims line endings from the leading end
as well, so an evaluation command whose stdout begins with a newline does
not have that character preserved. Concretely, stdout LF ++ pass resolves
to pass, while the spec-described trailing-only trim keeps the leading
LF. -/
theorem C6_counterexample :
    password_value ⟨none, some "getpw"⟩ (fun _ => .ok "\npass") = .ok "pass" ∧
    escape_password (spec_rstrip_crlf "\npass") = "\npass" ∧
    ("pass" : String) ≠ "\npass" :=
  ⟨rfl, rfl, by decide⟩

/-- C6 amended: a literal password resolves to the quote-escaped literal;
an evaluation command resolves to its captured stdout with leading and
trailing line-ending characters trimmed and then quote-escaped; the
password pa-quote-ss escapes to pa-backslash-quote-ss. -/
theorem C6_amended_escaping (cfg : PasswordConfig) (run_eval : String → EvalOutcome) :
    (∀ pw, cfg.password_eval = none → cfg.password = some pw →
      password_value cfg run_eval = .ok (escape_password pw)) ∧
    (∀ cmd out, cfg.password_eval = some cmd → run_eval cmd = .ok out →
      password_value cfg run_eval = .ok (escape_password (strip_crlf out))) ∧
    escape_password "pa\"ss" = "pa\\\"ss" := by
  refine ⟨fun pw h1 h2 => ?_, fun cmd out h1 h2 => ?_, rfl⟩
  · simp [password_value, get_password, Except.map, h1, h2]
  · simp [password_value, get_password, Except.map, h1, h2]

theorem C6_amended_witness :
    password_value ⟨some "pa\"ss", none⟩ (fun _ => .otherExc "unused") = .ok "pa\\\"ss" :=
  (C6_amended_escaping ⟨some "pa\"ss", none⟩ (fun _ => .otherExc "unused")).1 "pa\"ss" rfl rfl

/-- C7: resolution fails with ConfigError exactly when neither a literal
password nor a password_eval command is configured, and with
PasswordEvalError, carrying the evaluation command and the underlying
CalledProcessError, exactly when the configured evaluation command exits
non-zero. -/
theorem C7_password_error_taxonomy (cfg : PasswordConfig) (run_eval : String → EvalOutcome) :
    ((∃ m, password_value cfg run_eval = .error (.configError m)) ↔
      cfg.password_eval = none ∧ cfg.password = none) ∧
    ((∃ cmd e, password_value cfg run_eval = .error (.passwordEvalError cmd e)) ↔
      ∃ cmd rc argv, cfg.password_eval = some cmd ∧
        run_eval cmd = .calledProcessError rc argv) ∧
    (∀ cmd rc argv, cfg.password_eval = some cmd →
      run_eval cmd = .calledProcessError rc argv →
      password_value cfg run_eval =
        .error (.passwordEvalError cmd (.calledProcessError rc argv))) := by
  rcases hpe : cfg.password_eval with _ | cmd0
  · rcases hp : cfg.password with _ | p
    · simp [password_value, get_password, Except.map, hpe, hp]
    · simp [password_value, get_password, Except.map, hpe, hp]
  · rcases hrun : run_eval cmd0 with out | ⟨rc0, argv0⟩ | msg0
    · simp only [password_value, get_password, Except.map, hpe, hrun]
      refine ⟨by simp, ?_, ?_⟩
      · constructor
        · rintro ⟨cmd, e, h⟩
          exact absurd h (by simp)
        · rintro ⟨cmd, rc, argv, hc, h⟩
          rcases Option.some.inj hc with rfl
          rw [hrun] at h
          exact absurd h (by simp)
      · rintro cmd rc argv hc h
        rcases Option.some.inj hc with rfl
        rw [hrun] at h
        exact absurd h (by simp)
    · simp only [password_value, get_password, Except.map, hpe, hrun]
      refine ⟨by simp, ?_, ?_⟩
      · constructor
        · intro _
          exact ⟨cmd0, rc0, argv0, rfl, hrun⟩
        · intro _
          exact ⟨cmd0, .calledProcessError rc0 argv0, rfl⟩
      · rintro cmd rc argv hc h
        rcases Option.some.inj hc with rfl
        rw [hrun] at h
        injection h with h1 h2
        rw [h1, h2]
    · simp only [password_value, get_password, Except.map, hpe, hrun]
      refine ⟨by simp, ?_, ?_⟩
      · constructor
        · rintro ⟨cmd, e, h⟩
          exact absurd h (by simp)
        · rintro ⟨cmd, rc, argv, hc, h⟩
          rcases Option.some.inj hc with rfl
          rw [hrun] at h
          exact absurd h (by simp)
      · rintro cmd rc argv hc h
        rcases Option.some.inj hc with rfl
        rw [hrun] at h
        exact absurd h (by simp)

theorem C7_witness :
    password_value ⟨none, some "getpw"⟩ (fun _ => .calledProcessError 3 ["getpw"]) =
      .error (.passwordEvalError "getpw" (.calledProcessError 3 ["getpw"])) :=
  (C7_password_error_taxonomy ⟨none, some "getpw"⟩
      (fun _ => .calledProcessError 3 ["getpw"])).2.2 "getpw" 3 ["getpw"] rfl rfl

/-! ## Password memoization (core.py:59-61, boltons cachedproperty) -/

/-- The instance-dictionary slot backing the `password` cachedproperty: the
cached value, if the property has successfully computed, together with a
count of how many times the wrapped computation has been invoked. -/
structure PasswordSlot where
  cache : Option String
  compute_count : Nat
  deriving DecidableEq, Repr

/-- A fresh `Notifier`: the slot is absent and the computation has never
run (`__init__` does not touch it). -/
def initial_slot : PasswordSlot :=
  ⟨none, 0⟩

/-- One read of the `password` property. Model of the boltons
`cachedproperty` descriptor: when the slot holds a value, return it without
invoking the computation; otherwise invoke the computation and, if it
returns, store the result in the slot (a raising computation stores
nothing, because the descriptor assigns the instance dictionary only after
the wrapped function returns). -/
def access_password (compute : Except PyErr String) (st : PasswordSlot) :
    Except PyErr String × PasswordSlot :=
  match st.cache with
  | some v => (.ok v, st)
  | none =>
      match compute with
      | .ok v => (.ok v, ⟨some v, st.compute_count + 1⟩)
      | .error e => (.error e, ⟨none, st.compute_count + 1⟩)

/-- The slot after `n` successive property reads (one read per watcher that
reaches the login step). -/
def slot_after (compute : Except PyErr String) : Nat → PasswordSlot
  | 0 => initial_slot
  | n + 1 => (access_password compute (slot_after compute n)).2

theorem slot_after_succ_ok (v : String) (n : Nat) :
    slot_after (.ok v) (n + 1) = ⟨some v, 1⟩ := by
  induction n with
  | zero => rfl
  | succ n ih =>
      show (access_password (.ok v) (slot_after (.ok v) (n + 1))).2 = _
      rw [ih]
      rfl

/-- C8: once the first read of the password property performs the
underlying computation, the value is memoized: after any positive number
of reads the computation has run exactly once, the slot caches the value,
and every further read returns the cached value while leaving the slot
unchanged, regardless of how many watchers read it. -/
theorem C8_password_memoized (v : String) (compute : Except PyErr String)
    (hok : compute = .ok v) :
    ∀ n, 1 ≤ n →
      (slot_after compute n).compute_count = 1 ∧
      (slot_after compute n).cache = some v ∧
      (access_password compute (slot_after compute n)).1 = .ok v ∧
      (access_password compute (slot_after compute n)).2 = slot_after compute n := by
  subst hok
  intro n hn
  obtain ⟨m, rfl⟩ : ∃ m, n = m + 1 := ⟨n - 1, (Nat.succ_pred_eq_of_pos hn).symm⟩
  rw [slot_after_succ_ok]
  exact ⟨rfl, rfl, rfl, rfl⟩

theorem C8_witness :
    (slot_after (.ok "pw") 3).compute_count = 1 ∧
    (slot_after (.ok "pw") 3).cache = some "pw" ∧
    (access_password (.ok "pw") (slot_after (.ok "pw") 3)).1 = .ok "pw" ∧
    (access_password (.ok "pw") (slot_after (.ok "pw") 3)).2 = slot_after (.ok "pw") 3 :=
  C8_password_memoized "pw" (.ok "pw") rfl 3 (by decide)

/-! ## Command template substitution (core.py:142-160) -/

/-- Model of CPython percent-formatting `template % box` with a single
string argument, restricted to the conversions relevant here: a percent
followed by s consumes the argument (a second consumer raises TypeError,
not enough arguments), a doubled percent yields a literal percent, a
trailing lone percent raises ValueError, and other conversion characters
are modelled as a generic formatting error (width, precision and mapping
forms do not occur in the claims). If the argument is never consumed,
TypeError, not all arguments converted, is raised. `used` records whether
the single argument has been consumed so far. -/
def py_percent_format (arg : List Char) : List Char → Bool → Except PyErr (List Char)
  | [], used =>
      if used then .ok []
      else .error (.typeError "not all arguments converted during string formatting")
  | c :: rest, used =>
      if c = '%' then
        match rest with
        | [] => .error (.valueError "incomplete format")
        | d :: rest2 =>
            if d = 's' then
              if used then .error (.typeError "not enough arguments for format string")
              else (py_percent_format arg rest2 true).map (fun t => arg ++ t)
            else if d = '%' then
              (py_percent_format arg rest2 used).map (fun t => '%' :: t)
            else .error (.valueError "unsupported format character")
      else (py_percent_format arg rest used).map (fun t => c :: t)

/-- The substitution step shared by `_on_new_message` (core.py:143-145) and
`_on_new_message_post` (core.py:152-155): when the template contains the
substring percent-s, apply Python percent-formatting with the mailbox name
as the single argument; otherwise the template is used unchanged. -/
def substitute_box (template box : String) : Except PyErr String :=
  if py_in_str "%s" template then
    (py_percent_format box.data template.data false).map String.mk
  else .ok template

theorem py_percent_format_no_placeholder (arg : List Char) :
    ∀ b : List Char, '%' ∉ b → py_percent_format arg b true = .ok b := by
  intro b
  induction b with
  | nil => intro _; rfl
  | cons c rest ih =>
      intro hb
      have hc : c ≠ '%' := fun h => hb (h ▸ List.mem_cons_self c rest)
      have hrest : '%' ∉ rest := fun h => hb (List.mem_cons_of_mem c h)
      rw [py_percent_format.eq_def]
      simp [hc, ih hrest, Except.map]

theorem py_percent_format_single (arg : List Char) :
    ∀ a b : List Char, '%' ∉ a → '%' ∉ b →
      py_percent_format arg (a ++ '%' :: 's' :: b) false = .ok (a ++ arg ++ b) := by
  intro a
  induction a with
  | nil =>
      intro b _ hb
      rw [List.nil_append,
        show py_percent_format arg ('%' :: 's' :: b) false
            = (py_percent_format arg b true).map (fun t => arg ++ t) from rfl,
        py_percent_format_no_placeholder arg b hb]
      rfl
  | cons c a ih =>
      intro b ha hb
      have hc : c ≠ '%' := fun h => ha (h ▸ List.mem_cons_self c a)
      have ha2 : '%' ∉ a := fun h => ha (List.mem_cons_of_mem c h)
      rw [py_percent_format.eq_def]
      simp [hc, ih b ha2 hb, Except.map]

theorem sub_list_append_left (pat : List Char) :
    ∀ x l : List Char, sub_list pat l = true → sub_list pat (x ++ l) = true := by
  intro x
  induction x with
  | nil => intro l h; simpa using h
  | cons c x ih =>
      intro l h
      show sub_list pat (c :: (x ++ l)) = true
      simp only [sub_list, Bool.or_eq_true]
      exact Or.inr (ih l h)

/-- C4 as stated is false: a template containing the placeholder twice is
not substituted but raises a TypeError from Python percent-formatting, so
not every template containing the placeholder has it replaced by the
mailbox name. -/
theorem C4_counterexample :
    substitute_box "%s %s" "INBOX" =
      .error (.typeError "not enough arguments for format string") := rfl

/-- C4 amended: a template whose only percent character forms a single
placeholder has that placeholder replaced exactly once by the literal
mailbox name with all other characters preserved, and a template without
the placeholder substring passes through unchanged; templates with further
percent characters go through full Python percent-formatting, which can
raise. -/
theorem C4_template_substitution_amended :
    (∀ (a b : List Char) (box : String), '%' ∉ a → '%' ∉ b →
      substitute_box (String.mk (a ++ '%' :: 's' :: b)) box =
        .ok (String.mk (a ++ box.data ++ b))) ∧
    (∀ t box : String, py_in_str "%s" t = false → substitute_box t box = .ok t) := by
  constructor
  · intro a b box ha hb
    have hgate : py_in_str "%s" (String.mk (a ++ '%' :: 's' :: b)) = true := by
      show sub_list ("%s".data) (a ++ '%' :: 's' :: b) = true
      apply sub_list_append_left
      apply sub_list_of_isPrefixOf
      rw [List.isPrefixOf_iff_prefix]
      exact ⟨b, rfl⟩
    simp only [substitute_box, hgate, if_true]
    rw [py_percent_format_single box.data a b ha hb]
    rfl
  · intro t box h
    simp [substitute_box, h]

theorem C4_witness :
    substitute_box (String.mk ("notify.sh ".data ++ '%' :: 's' :: "".data)) "INBOX" =
      .ok (String.mk ("notify.sh ".data ++ "INBOX".data ++ "".data)) :=
  C4_template_substitution_amended.1 "notify.sh ".data "".data "INBOX"
    (by decide) (by decide)

/-! ## Dispatch (core.py:112-172) -/

/-- Observable events while the watchers and the supervisor work: a
callback being fired on a tokenized command, its logged outcome, and the
supervisor logging a finished task's exception. -/
inductive Event : Type where
  | firing (argv : List String)
  | callbackResult (argv : List String)
  | callbackError (argv : List String)
  | supervisorLoggedError (box : String)
  deriving DecidableEq, Repr

/-- The callbacks configured for one mailbox by `add_box` (core.py:89-94):
the primary command template and the optional post template. -/
structure BoxConfig where
  on_new_message : String
  on_new_message_post : Option String
  deriving DecidableEq, Repr

/-- `Notifier._run_on_new_message_callback` (core.py:162-172): fire the
callback on the tokenized command; a successful result is logged at debug
level, any exception it raises is caught and logged as an error, never
re-raised. `run_cmd_exec` is the oracle giving each spawned command's
outcome (stdout bytes or a raised exception). -/
def run_on_new_message_callback (run_cmd_exec : List String → Except PyErr (List Nat))
    (argv : List String) : List Event :=
  match run_cmd_exec argv with
  | .ok _ => [.firing argv, .callbackResult argv]
  | .error _ => [.firing argv, .callbackError argv]

/-- `Notifier._on_new_message` (core.py:142-149): substitute the mailbox
name into the primary template, tokenize it (`split` models `shlex.split`)
and fire the callback. An error raised by the substitution itself happens
before the try of the callback runner and propagates. -/
def on_new_message (cfg : BoxConfig) (box : String) (split : String → List String)
    (run_cmd_exec : List String → Except PyErr (List Nat)) : Except PyErr (List Event) :=
  match substitute_box cfg.on_new_message box with
  | .error e => .error e
  | .ok command => .ok (run_on_new_message_callback run_cmd_exec (split command))

/-- `Notifier._on_new_message_post` (core.py:151-160): like the primary
callback but only when the post template is configured and truthy (Python
treats an absent value and the empty string as falsy); otherwise a no-op
future. -/
def on_new_message_post (cfg : BoxConfig) (box : String) (split : String → List String)
    (run_cmd_exec : List String → Except PyErr (List Nat)) : Except PyErr (List Event) :=
  match cfg.on_new_message_post with
  | none => .ok []
  | some t =>
      if t = "" then .ok []
      else
        match substitute_box t box with
        | .error e => .error e
        | .ok command => .ok (run_on_new_message_callback run_cmd_exec (split command))

/-- The watcher phases distinguished by one pass of the idle loop. -/
inductive WatcherPhase : Type where
  | idling
  | stopped
  deriving DecidableEq, Repr

/-- One iteration of the `while True` body in `Notifier._idle`
(core.py:116-122): a qualifying push runs the primary dispatch, then the
post dispatch, and the loop returns to awaiting the next push; a
non-qualifying push loops immediately. Only an exception escaping the
loop body ends the watcher; callback failures are swallowed inside
`_run_on_new_message_callback` and never escape. -/
def idle_loop_step (cfg : BoxConfig) (box : String) (split : String → List String)
    (run_cmd_exec : List String → Except PyErr (List Nat)) (push : ServerPush) :
    Except PyErr (List Event × WatcherPhase) :=
  if is_new_msg push then
    match on_new_message cfg box split run_cmd_exec with
    | .error e => .error e
    | .ok evs1 =>
        match on_new_message_post cfg box split run_cmd_exec with
        | .error e => .error e
        | .ok evs2 => .ok (evs1 ++ evs2, .idling)
  else .ok ([], .idling)

/-- C2: on a qualifying push the primary command fires strictly before the
post command; whatever outcome the command oracle gives either command
(non-zero exit or any other exception), the failure is logged and
swallowed, the post command is still attempted, the dispatch completes
normally and the watcher returns to idling. -/
theorem C2_dispatch_order_and_swallow (cfg : BoxConfig) (box : String)
    (split : String → List String) (run_cmd_exec : List String → Except PyErr (List Nat))
    (push : ServerPush) (cmd1 t cmd2 : String)
    (h1 : substitute_box cfg.on_new_message box = .ok cmd1)
    (h2 : cfg.on_new_message_post = some t) (h3 : t ≠ "")
    (h4 : substitute_box t box = .ok cmd2)
    (hq : is_new_msg push = true) :
    idle_loop_step cfg box split run_cmd_exec push =
      .ok (run_on_new_message_callback run_cmd_exec (split cmd1) ++
          run_on_new_message_callback run_cmd_exec (split cmd2), .idling) ∧
    (run_on_new_message_callback run_cmd_exec (split cmd1) ++
        run_on_new_message_callback run_cmd_exec (split cmd2)).head? =
      some (.firing (split cmd1)) ∧
    Event.firing (split cmd2) ∈
      run_on_new_message_callback run_cmd_exec (split cmd1) ++
        run_on_new_message_callback run_cmd_exec (split cmd2) ∧
    (∀ e, run_cmd_exec (split cmd1) = .error e →
      Event.callbackError (split cmd1) ∈
        run_on_new_message_callback run_cmd_exec (split cmd1) ++
          run_on_new_message_callback run_cmd_exec (split cmd2)) := by
  refine ⟨?_, ?_, ?_, ?_⟩
  · simp [idle_loop_step, on_new_message, on_new_message_post, hq, h1, h2, h3, h4]
  · cases hres : run_cmd_exec (split cmd1) <;>
      simp [run_on_new_message_callback, hres]
  · cases hres : run_cmd_exec (split cmd1) <;>
      cases hres2 : run_cmd_exec (split cmd2) <;>
        simp [run_on_new_message_callback, hres, hres2]
  · intro e he
    cases hres2 : run_cmd_exec (split cmd2) <;>
      simp [run_on_new_message_callback, he, hres2]

theorem C2_witness :
    idle_loop_step ⟨"notify.sh %s", some "post.sh"⟩ "INBOX" (fun s => [s])
        (fun _ => .error (.calledProcessError 1 [])) (.single "2 EXISTS") =
      .ok (run_on_new_message_callback (fun _ => .error (.calledProcessError 1 []))
              ["notify.sh INBOX"] ++
            run_on_new_message_callback (fun _ => .error (.calledProcessError 1 []))
              ["post.sh"], .idling) :=
  (C2_dispatch_order_and_swallow ⟨"notify.sh %s", some "post.sh"⟩ "INBOX" (fun s => [s])
      (fun _ => .error (.calledProcessError 1 [])) (.single "2 EXISTS")
      "notify.sh INBOX" "post.sh" "post.sh" rfl rfl (by decide) rfl rfl).1

/-! ## Supervisor (core.py:96-102) -/

/-- The futures created by `asyncio.ensure_future` in `run`, one per
configured mailbox, paired with the outcome each `_idle` coroutine
eventually completes with: `none` for normal completion, `some e` when it
ends with exception `e` (`outcome` is the oracle for the watcher
bodies). -/
def watcher_tasks (boxes : List String) (outcome : String → Option PyErr) :
    List (String × Option PyErr) :=
  boxes.map (fun b => (b, outcome b))

/-- Model of `asyncio.wait` at its default `return_when`, which is
ALL_COMPLETED: the awaited result (done, pending) has every task done and
none pending, and the wait cancels nothing. -/
def asyncio_wait_all (tasks : List (String × Option PyErr)) :
    List (String × Option PyErr) × List (String × Option PyErr) :=
  (tasks, [])

/-- `Notifier.run` (core.py:96-102): start one `_idle` task per configured
mailbox, wait for all of them, then log, without re-raising, the
exception of every task that ended with one. The returned list is the
error log; `run` itself always returns normally. -/
def run_watchers (boxes : List String) (outcome : String → Option PyErr) : List Event :=
  let pair := asyncio_wait_all (watcher_tasks boxes outcome)
  pair.1.filterMap (fun task => task.2.map (fun _ => Event.supervisorLoggedError task.1))

/-- C3: run starts exactly one watcher task per configured mailbox and
awaits all of them, not first-to-finish (the wait leaves nothing pending
and reports every task done); every task that finished with a failure is
logged and none is re-raised (run returns its log normally); and the
tasks of the other mailboxes are untouched by one mailbox's permanent
failure: any two outcome assignments agreeing outside mailbox k give
identical task lists away from k. -/
theorem C3_run_waits_for_all (boxes : List String) (outcome : String → Option PyErr) :
    (watcher_tasks boxes outcome).length = boxes.length ∧
    asyncio_wait_all (watcher_tasks boxes outcome) = (watcher_tasks boxes outcome, []) ∧
    (∀ b ∈ boxes, ∀ e, outcome b = some e →
      Event.supervisorLoggedError b ∈ run_watchers boxes outcome) ∧
    (∀ (outcome2 : String → Option PyErr) (k : String),
      (∀ b, b ≠ k → outcome2 b = outcome b) →
      (watcher_tasks boxes outcome2).filter (fun task => decide (task.1 ≠ k)) =
        (watcher_tasks boxes outcome).filter (fun task => decide (task.1 ≠ k))) := by
  refine ⟨by simp [watcher_tasks], rfl, ?_, ?_⟩
  · intro b hb e he
    refine List.mem_filterMap.2 ⟨(b, outcome b), ?_, by simp [he]⟩
    exact List.mem_map_of_mem _ hb
  · intro outcome2 k hagree
    induction boxes with
    | nil => rfl
    | cons hd tl ih =>
        show ((hd, outcome2 hd) :: watcher_tasks tl outcome2).filter
            (fun task => decide (task.1 ≠ k)) =
          ((hd, outcome hd) :: watcher_tasks tl outcome).filter
            (fun task => decide (task.1 ≠ k))
        simp only [decide_not] at ih
        by_cases hk : hd = k
        · simp only [List.filter_cons, decide_not, hk]
          simp [ih]
        · have h2 : (!decide (hd = k)) = true := by simp [hk]
          simp only [List.filter_cons, decide_not, h2, if_true]
          rw [hagree hd hk, ih]

theorem C3_witness :
    Event.supervisorLoggedError "INBOX" ∈
      run_watchers ["INBOX", "Spam"]
        (fun b => if b = "INBOX" then some (.authError "host" 993 "user" "pw") else none) :=
  (C3_run_waits_for_all ["INBOX", "Spam"]
      (fun b => if b = "INBOX" then some (.authError "host" 993 "user" "pw") else none)).2.2.1
    "INBOX" (by decide) (.authError "host" 993 "user" "pw") (by decide)

/-! ## Connection and selection (core.py:74-87, 127-131) -/

/-- The IMAP protocol steps a watcher awaits or issues, in order. -/
inductive ImapStep : Type where
  | helloWait
  | loginStep (login password : String)
  | logoutStep
  | selectStep (box : String)
  | idleStep
  deriving DecidableEq, Repr

/-- The connection identity `_connect` uses and embeds into
`AuthError`. -/
structure ConnParams where
  host : String
  port : Nat
  login : String
  password : String
  deriving DecidableEq, Repr

/-- The aioimaplib client's behaviour at each await point of `_connect`
and `_select_box`: the hello wait, the login exchange, and the SELECT
command. Library commands that complete return a response whose result
string can be OK or NO without raising (the code's own login check of
`resp.result` at core.py:80 relies on exactly this), so both the login
and the select await yield a result string; `.error` is an exception
raised at that await (e.g. a transport failure). -/
structure ImapOracle where
  hello : Except PyErr Unit
  login_result : Except PyErr String
  select_result : Except PyErr String

/-- `Notifier._connect` (core.py:74-87): wait for the server hello, log
in, and check the response result; anything but OK logs out and raises
`AuthError` carrying host, port, login and the escaped password. The
first component is the trace of protocol steps reached. -/
def connect_trace (p : ConnParams) (o : ImapOracle) : List ImapStep × Except PyErr Unit :=
  match o.hello with
  | .error e => ([.helloWait], .error e)
  | .ok _ =>
      match o.login_result with
      | .error e => ([.helloWait, .loginStep p.login p.password], .error e)
      | .ok r =>
          if r = "OK" then ([.helloWait, .loginStep p.login p.password], .ok ())
          else ([.helloWait, .loginStep p.login p.password, .logoutStep],
            .error (.authError p.host p.port p.login p.password))

/-- `Notifier._select_box` (core.py:127-131): connect, then await the
SELECT of the named mailbox, then create the IDLE task via
`asyncio.ensure_future(imap_client.idle())`. The select response is
discarded: core.py:129 never reads its result, so IDLE is issued
whenever the SELECT await returns, whatever result string the server
answered; only an exception from the connect or from the SELECT await
propagates before the IDLE command is issued. -/
def select_box_trace (p : ConnParams) (o : ImapOracle) (box : String) :
    List ImapStep × Except PyErr Unit :=
  let conn := connect_trace p o
  match conn.2 with
  | .error e => (conn.1, .error e)
  | .ok _ =>
      match o.select_result with
      | .error e => (conn.1 ++ [.selectStep box], .error e)
      | .ok _r => (conn.1 ++ [.selectStep box, .idleStep], .ok ())

/-- Selection success as the spec describes it (the §3 invariant and
§4.3 Connecting→Selected): the SELECT command completed with an OK
result, the same success criterion the code itself applies to the login
response. Written from the spec's words, to be compared with what
`select_box_trace` does. -/
def spec_selection_successful (o : ImapOracle) : Prop :=
  o.select_result = .ok "OK"

/-- C5 as stated is false: when the SELECT completes with a NO result
(selection failed at the protocol level, e.g. a nonexistent mailbox),
the select response is never checked, the IDLE command is issued anyway
and the watcher proceeds into idling after the unsuccessful
selection. -/
theorem C5_counterexample :
    ImapStep.idleStep ∈
      (select_box_trace ⟨"host", 993, "user", "pw"⟩
        ⟨.ok (), .ok "OK", .ok "NO"⟩ "Nonexistent").1 ∧
    ¬ spec_selection_successful ⟨.ok (), .ok "OK", .ok "NO"⟩ ∧
    (select_box_trace ⟨"host", 993, "user", "pw"⟩
        ⟨.ok (), .ok "OK", .ok "NO"⟩ "Nonexistent").2 = .ok () := by
  refine ⟨by decide, ?_, rfl⟩
  intro h
  exact absurd (Except.ok.inj h) (by decide)

/-- C5 amended: the IDLE command appears in the watcher's trace exactly
when connecting succeeded and the SELECT await returned without raising
an exception — the select response's result string is never checked —
and then it appears immediately after the SELECT step; only an exception
during connect or select (the sole selection failure the code observes)
keeps the watcher out of the idling state. -/
theorem C5_idle_after_select_returns (p : ConnParams) (o : ImapOracle) (box : String) :
    (ImapStep.idleStep ∈ (select_box_trace p o box).1 ↔
      ((connect_trace p o).2 = .ok () ∧ ∃ r, o.select_result = .ok r)) ∧
    ((select_box_trace p o box).2 = .ok () →
      select_box_trace p o box =
        ((connect_trace p o).1 ++ [.selectStep box, .idleStep], .ok ())) ∧
    ImapStep.idleStep ∉ (connect_trace p o).1 := by
  rcases hh : o.hello with e | u
  · simp [select_box_trace, connect_trace, hh]
  · rcases hl : o.login_result with e | r
    · simp [select_box_trace, connect_trace, hh, hl]
    · by_cases hr : r = "OK"
      · rcases hs : o.select_result with e | v
        · simp [select_box_trace, connect_trace, hh, hl, hr, hs]
        · simp [select_box_trace, connect_trace, hh, hl, hr, hs]
      · simp [select_box_trace, connect_trace, hh, hl, hr]

theorem C5_amended_witness :
    select_box_trace ⟨"host", 993, "user", "pw"⟩ ⟨.ok (), .ok "OK", .ok "OK"⟩ "INBOX" =
      ((connect_trace ⟨"host", 993, "user", "pw"⟩ ⟨.ok (), .ok "OK", .ok "OK"⟩).1 ++
        [.selectStep "INBOX", .idleStep], .ok ()) :=
  (C5_idle_after_select_returns ⟨"host", 993, "user", "pw"⟩
      ⟨.ok (), .ok "OK", .ok "OK"⟩ "INBOX").2.1 rfl

/-! ## check_output (core.py:175-192) -/

/-- A spawned process as observed through `popen_stream`: the lines its
stdout stream yields, the lines its stderr stream yields, and its exit
status after `wait`. -/
structure SpawnedProc where
  stdout_lines : List (List Nat)
  stderr_lines : List (List Nat)
  returncode : Int
  deriving DecidableEq, Repr

/-- `check_output` (core.py:181-192): pipe stdout and stderr, spawn the
argv, extend a byte buffer with each stdout line, wait for exit, and
raise `CalledProcessError(returncode, args)` when the return code is
truthy (non-zero); otherwise return the collected stdout bytes. The
stderr stream is piped but never read into the result. `spawn` is the
oracle mapping an argv to the process it creates. -/
def check_output (spawn : List String → SpawnedProc) (args : List String) :
    Except PyErr (List Nat) :=
  let proc := spawn args
  let data := proc.stdout_lines.flatten
  if proc.returncode ≠ 0 then .error (.calledProcessError proc.returncode args)
  else .ok data

/-- C9: the command runner returns the process's collected stdout bytes
exactly when the process exits with code zero, fails with a
CalledProcessError carrying the exit code and the argv exactly when the
exit code is non-zero, and its result never depends on the stderr
stream: two spawns agreeing on stdout and exit status give the same
result whatever their stderr. -/
theorem C9_check_output_contract (spawn : List String → SpawnedProc) (args : List String) :
    ((spawn args).returncode = 0 →
      check_output spawn args = .ok ((spawn args).stdout_lines.flatten)) ∧
    ((spawn args).returncode ≠ 0 →
      check_output spawn args =
        .error (.calledProcessError (spawn args).returncode args)) ∧
    (∀ spawn2 : List String → SpawnedProc,
      (spawn2 args).stdout_lines = (spawn args).stdout_lines →
      (spawn2 args).returncode = (spawn args).returncode →
      check_output spawn2 args = check_output spawn args) := by
  refine ⟨fun h => by simp [check_output, h], fun h => by simp [check_output, h], ?_⟩
  intro spawn2 h1 h2
  simp [check_output, h1, h2]

theorem C9_witness :
    check_output (fun _ => ⟨[[104, 105]], [[101]], 0⟩) ["cmd"] = .ok [104, 105] :=
  (C9_check_output_contract (fun _ => ⟨[[104, 105]], [[101]], 0⟩) ["cmd"]).1 rfl

/-! ## stop before run (core.py:45-54, 96-110) -/

/-- The attributes of a `Notifier` instance that `stop` touches: the
boxes dictionary, each entry with its optional connection handle (present
only once `_select_box` has stored one), and the `tasks` attribute,
which exists only once `run` has assigned it. -/
structure NotifierAttrs where
  boxes : List (String × Option Nat)
  tasks : Option (List Nat)
  deriving DecidableEq, Repr

/-- `Notifier.__init__` (core.py:45-54): creates the empty boxes
dictionary; the `tasks` attribute is not assigned. -/
def init_notifier : NotifierAttrs :=
  ⟨[], none⟩

/-- `Notifier.add_box` (core.py:89-94): adds a callbacks entry for the
mailbox; no connection key is stored. -/
def add_box (st : NotifierAttrs) (name : String) : NotifierAttrs :=
  ⟨st.boxes ++ [(name, none)], st.tasks⟩

/-- The assignment `self.tasks = [...]` at the top of `Notifier.run`
(core.py:97), one future per box. -/
def run_assign_tasks (st : NotifierAttrs) : NotifierAttrs :=
  ⟨st.boxes, some (List.range st.boxes.length)⟩

/-- `Notifier.stop` (core.py:104-110): first exit IDLE and log out on
every box that has a connection (their names are returned in order),
then read `self.tasks` to cancel every task; that attribute read raises
`AttributeError` when `run` has never assigned it. On success the number
of cancelled tasks is returned. -/
def stop_notifier (st : NotifierAttrs) : List String × Except PyErr Nat :=
  let closed := st.boxes.filterMap (fun b => b.2.map (fun _ => b.1))
  match st.tasks with
  | none => (closed, .error (.attributeError "tasks"))
  | some ts => (closed, .ok ts.length)

theorem foldl_add_box_tasks (adds : List String) :
    ∀ st : NotifierAttrs, (adds.foldl add_box st).tasks = st.tasks := by
  induction adds with
  | nil => intro st; rfl
  | cons a adds ih => intro st; exact (ih (add_box st a)).trans rfl

theorem foldl_add_box_no_connection (adds : List String) :
    ∀ st : NotifierAttrs, (∀ b ∈ st.boxes, b.2 = none) →
      ∀ b ∈ (adds.foldl add_box st).boxes, b.2 = none := by
  induction adds with
  | nil => intro st h; exact h
  | cons a adds ih =>
      intro st h
      refine ih (add_box st a) ?_
      intro b hb
      rcases List.mem_append.1 hb with h1 | h2
      · exact h b h1
      · simp only [List.mem_singleton] at h2
        rw [h2]

/-- C10: on a Notifier that has been constructed and had any number of
mailboxes added but whose run() was never invoked, stop() closes nothing
and raises AttributeError (the tasks attribute does not exist), rather
than being a no-op; once run() has assigned the task list, stop() no
longer raises that error. -/
theorem C10_stop_before_run (adds : List String) :
    (stop_notifier (adds.foldl add_box init_notifier)).2 =
      .error (.attributeError "tasks") ∧
    (stop_notifier (adds.foldl add_box init_notifier)).1 = [] ∧
    (∀ st : NotifierAttrs, (stop_notifier (run_assign_tasks st)).2 ≠
      .error (.attributeError "tasks")) := by
  refine ⟨?_, ?_, ?_⟩
  · have h2 : (adds.foldl add_box init_notifier).tasks = none :=
      foldl_add_box_tasks adds init_notifier
    simp [stop_notifier, h2]
  · have h := foldl_add_box_no_connection adds init_notifier (by intro b hb; cases hb)
    have hnil : ((adds.foldl add_box init_notifier).boxes).filterMap
        (fun b => b.2.map (fun _ => b.1)) = [] := by
      rw [List.filterMap_eq_nil_iff]
      intro b hb
      rw [h b hb]
      rfl
    rcases ht : (adds.foldl add_box init_notifier).tasks with _ | ts
    · simp [stop_notifier, ht, hnil]
    · simp [stop_notifier, ht, hnil]
  · intro st
    simp [stop_notifier, run_assign_tasks]

theorem C10_witness :
    (stop_notifier (["INBOX"].foldl add_box init_notifier)).2 =
      .error (.attributeError "tasks") :=
  (C10_stop_before_run ["INBOX"]).1
